import Mathlib

set_option maxRecDepth 8000
set_option maxHeartbeats 2000000
set_option linter.unusedVariables false

/-!
Verification of the HNL production drivers (decay-channel configuration and
parent resolution) of the llpatcolliders repository.

The engine interaction of the drivers consists of textual commands sent via
readString; we embed each command kind as a constructor of an abstract
command type, and each configurator as a pure function from its run
parameters to the list of commands it issues, in source order.  Masses are
embedded as rationals; the double comparisons of the source are strict
rational comparisons on the same decimal constants.
-/

/-- One engine-configuration command, as issued through readString:
mayDecay = on, onMode = off, or addChannel with a sampling weight,
a matrix-element mode and a daughter id list. -/
inductive Cmd where
  | mayDecayOn (pid : Int)
  | onModeOff (pid : Int)
  | addChannel (pid : Int) (weight : ℚ) (meMode : Int) (daughters : List Int)
  deriving DecidableEq, Repr

/-- The particle-species id a command addresses. -/
def Cmd.pid : Cmd → Int
  | .mayDecayOn p => p
  | .onModeOff p => p
  | .addChannel p _ _ _ => p

/-- Whether a command inserts a decay channel. -/
def Cmd.isAddChannel : Cmd → Bool
  | .addChannel _ _ _ _ => true
  | _ => false

/-- Number of daughters of an inserted channel (0 for non-channel commands). -/
def Cmd.nDaughters : Cmd → Nat
  | .addChannel _ _ _ ds => ds.length
  | _ => 0

/-- Sampling weight of an inserted channel (0 for non-channel commands). -/
def Cmd.weight : Cmd → ℚ
  | .addChannel _ w _ _ => w
  | _ => 0

/-- All channel-insertion commands addressed to species p or its conjugate -p. -/
def chansFor (cmds : List Cmd) (p : Int) : List Cmd :=
  cmds.filter fun c => c.isAddChannel && decide (c.pid = p ∨ c.pid = -p)

/-- The 2-body channel insertions addressed to species p or -p. -/
def twoBodyChans (cmds : List Cmd) (p : Int) : List Cmd :=
  cmds.filter fun c =>
    c.isAddChannel && decide (c.pid = p ∨ c.pid = -p) && decide (c.nDaughters = 2)

/-- Whether some 3-body channel insertion addresses species p or -p. -/
def threeBodyEnabled (cmds : List Cmd) (p : Int) : Bool :=
  cmds.any fun c =>
    c.isAddChannel && decide (c.pid = p ∨ c.pid = -p) && decide (c.nDaughters = 3)

/-- Whether any command at all addresses species p or -p. -/
def touches (cmds : List Cmd) (p : Int) : Bool :=
  cmds.any fun c => decide (c.pid = p ∨ c.pid = -p)

/-- Number of onMode = off commands addressed to exactly species p. -/
def onModeOffCount (cmds : List Cmd) (p : Int) : Nat :=
  (cmds.filter fun c => decide (c = Cmd.onModeOff p)).length

namespace ProdMain

/-- HNL PDG id of src/production/main_hnl_production.cc. -/
def HNL_ID : Int := 9900015

def M_ELECTRON : ℚ := 0.000511
def M_MUON : ℚ := 0.10566
def M_TAU : ℚ := 1.777

/-- The MESON_MASSES table of src/production/main_hnl_production.cc. -/
def mesonMass : Int → ℚ
  | 321 => 0.494
  | 411 => 1.870
  | 421 => 1.865
  | 431 => 1.968
  | 511 => 5.280
  | 521 => 5.279
  | 531 => 5.367
  | 541 => 6.275
  | _ => 0

/-- isKinematicallyAllowed2Body of src/production/main_hnl_production.cc:154-156. -/
def isKinematicallyAllowed2Body (mParent mLepton mHNL : ℚ) : Bool :=
  mHNL < mParent - mLepton

/-- The 2-body leptonic emitter catalog (CHARGED_MESONS_2BODY with their
MESON_MASSES entries). -/
def emitters2 : List (Int × ℚ) :=
  [(321, 0.494), (411, 1.870), (431, 1.968), (521, 5.279), (541, 6.275)]

/-- The 3-body semileptonic emitter catalog of configureMesonDecays:
(parent id, parent mass, daughter mass) as hard-coded in
src/production/main_hnl_production.cc:299-381. -/
def emitters3 : List (Int × ℚ × ℚ) :=
  [(421, 1.865, 0.494), (411, 1.870, 0.498), (511, 5.280, 1.870),
   (521, 5.279, 1.865), (531, 5.367, 1.968), (5122, 5.620, 2.286)]

/-- configureMesonDecays of src/production/main_hnl_production.cc:214-387,
as the list of engine commands issued, in source order. -/
def configureMesonDecays (leptonID : Int) (mHNL mLepton : ℚ) : List Cmd :=
  (if isKinematicallyAllowed2Body (mesonMass 321) mLepton mHNL then
    [.onModeOff 321, .addChannel 321 1 0 [-leptonID, HNL_ID],
     .onModeOff (-321), .addChannel (-321) 1 0 [leptonID, HNL_ID]] else []) ++
  (if isKinematicallyAllowed2Body (mesonMass 411) mLepton mHNL then
    [.onModeOff 411, .addChannel 411 1 0 [-leptonID, HNL_ID],
     .onModeOff (-411), .addChannel (-411) 1 0 [leptonID, HNL_ID]] else []) ++
  (if isKinematicallyAllowed2Body (mesonMass 431) mLepton mHNL then
    [.onModeOff 431, .addChannel 431 1 0 [-leptonID, HNL_ID],
     .onModeOff (-431), .addChannel (-431) 1 0 [leptonID, HNL_ID]] else []) ++
  (if isKinematicallyAllowed2Body (mesonMass 521) mLepton mHNL then
    [.onModeOff 521, .addChannel 521 1 0 [-leptonID, HNL_ID],
     .onModeOff (-521), .addChannel (-521) 1 0 [leptonID, HNL_ID]] else []) ++
  (if isKinematicallyAllowed2Body (mesonMass 541) mLepton mHNL then
    [.onModeOff 541, .addChannel 541 1 0 [-leptonID, HNL_ID],
     .onModeOff (-541), .addChannel (-541) 1 0 [leptonID, HNL_ID]] else []) ++
  (if mHNL + mLepton + mesonMass 321 < mesonMass 421 then
    [.onModeOff 421, .addChannel 421 1 0 [-321, -leptonID, HNL_ID],
     .onModeOff (-421), .addChannel (-421) 1 0 [321, leptonID, HNL_ID]] else []) ++
  (if mHNL + mLepton + 0.498 < mesonMass 411 then
    [.addChannel 411 0.5 0 [-311, -leptonID, HNL_ID],
     .addChannel (-411) 0.5 0 [311, leptonID, HNL_ID]] else []) ++
  (if mHNL + mLepton + mesonMass 411 < mesonMass 511 then
    [.onModeOff 511, .addChannel 511 1 0 [-411, -leptonID, HNL_ID],
     .onModeOff (-511), .addChannel (-511) 1 0 [411, leptonID, HNL_ID]] else []) ++
  (if mHNL + mLepton + mesonMass 421 < mesonMass 521 then
    [.addChannel 521 0.5 0 [-421, -leptonID, HNL_ID],
     .addChannel (-521) 0.5 0 [421, leptonID, HNL_ID]] else []) ++
  (if mHNL + mLepton + mesonMass 431 < mesonMass 531 then
    [.onModeOff 531, .addChannel 531 1 0 [-431, -leptonID, HNL_ID],
     .onModeOff (-531), .addChannel (-531) 1 0 [431, leptonID, HNL_ID]] else []) ++
  (if mHNL + mLepton + 2.286 < 5.620 then
    [.onModeOff 5122, .addChannel 5122 1 0 [4122, leptonID, HNL_ID],
     .onModeOff (-5122), .addChannel (-5122) 1 0 [-4122, -leptonID, HNL_ID]] else [])

/-- configureTauDecays of src/production/main_hnl_production.cc:407-438:
all SM tau modes are switched off; the single representative channel
tau to pi N is inserted only when kinematically open, otherwise only a
warning is printed and no channel is inserted. -/
def configureTauDecays (mHNL : ℚ) : List Cmd :=
  [.onModeOff 15, .onModeOff (-15)] ++
  (if mHNL + 0.140 < M_TAU then
    [.addChannel 15 1 0 [-211, HNL_ID], .addChannel (-15) 1 0 [211, HNL_ID]] else [])

/-- Whether a flavor string is accepted by getLeptonInfo
(src/production/main_hnl_production.cc:129-151). -/
def knownFlavor (flavor : String) : Bool :=
  flavor = "electron" || flavor = "e" || flavor = "muon" || flavor = "mu" ||
  flavor = "μ" || flavor = "tau" || flavor = "τ"

/-- The pre-initialization validation of main in
src/production/main_hnl_production.cc:468-490: production-mode string check,
mode-flavor combination check, then getLeptonInfo (which exits on an unknown
flavor).  No check on the candidate mass is performed; Except.ok means the
driver proceeds to channel configuration and engine initialization. -/
def validateRun (mHNL : ℚ) (flavor productionMode : String) : Except Nat Unit :=
  if productionMode ≠ "direct" ∧ productionMode ≠ "fromTau" then .error 1
  else if productionMode = "fromTau" ∧ flavor ≠ "tau" then .error 1
  else if ¬ knownFlavor flavor then .error 1
  else .ok ()

end ProdMain

/-- One record of the engine's event listing: the species id and the two
ancestry links exposed per particle (earliest same-species copy index and
direct mother index). -/
structure Particle where
  id : Int
  iTopCopy : Int
  mother1 : Int
  deriving DecidableEq, Repr

/-- An event is the engine's flat particle listing. -/
abbrev Event := List Particle

/-- event.size of the engine record. -/
def Event.size (ev : Event) : Int := ev.length

/-- Indexed access event[i]; out-of-range access never occurs on the guarded
paths of the drivers, so the default record is irrelevant there. -/
def Event.get (ev : Event) (i : Int) : Particle :=
  ev.getD i.toNat ⟨0, 0, 0⟩

namespace ProdMain

/-- The index of the mother of the earliest same-species copy, with the
fallback to the particle itself when the iTopCopy link is out of range,
exactly as resolved in findPhysicalParent
(src/production/main_hnl_production.cc:180-185). -/
def motherOfTop (ev : Event) (i : Int) : Int :=
  let t0 := (Event.get ev i).iTopCopy
  let t := if t0 < 0 ∨ Event.size ev ≤ t0 then i else t0
  (Event.get ev t).mother1

/-- findPhysicalParent of src/production/main_hnl_production.cc:177-194. -/
def findPhysicalParent (ev : Event) (iHNL : Int) : Int :=
  if iHNL < 0 ∨ Event.size ev ≤ iHNL then 0
  else
    let iMother := motherOfTop ev iHNL
    if iMother ≤ 0 ∨ Event.size ev ≤ iMother then 0
    else if ((Event.get ev iMother).id.natAbs : Int) = HNL_ID then 0
    else (Event.get ev iMother).id

/-- The per-event candidate-mass recovery of the drivers'
event loops (src/production/main_hnl_production.cc:670-683 and the identical
logic at src/production/pythia_production/main_hnl_production.cc:1109-1124):
a non-positive or non-finite recorded mass is replaced by the run's nominal
input mass with a warning; if the substituted mass is still non-positive the
driver exits fatally with code 1.  The IEEE non-finiteness test on the
double is abstracted as the Boolean flag finite. -/
def processCandidateMass (pm : ℚ) (finite : Bool) (mHNL : ℚ) : Except Unit (ℚ × Bool) :=
  let warned : Bool := decide (pm ≤ 0) || !finite
  let mass : ℚ := if warned then mHNL else pm
  if mass ≤ 0 then .error () else .ok (mass, warned)

/-- A particle's kinematic and vertex data as read from the engine when a
CSV row is written (production-vertex coordinates are in millimeters). -/
structure Kin where
  id : Int
  pT : ℚ
  eta : ℚ
  phi : ℚ
  pAbs : ℚ
  e : ℚ
  m : ℚ
  xProd : ℚ
  yProd : ℚ
  zProd : ℚ
  deriving DecidableEq, Repr

/-- The CSV header of src/production/main_hnl_production.cc:640-641. -/
def csvHeader : List String :=
  ["event", "weight", "hnl_id", "parent_pdg", "pt", "eta", "phi", "p", "E", "mass",
   "prod_x_mm", "prod_y_mm", "prod_z_mm", "boost_gamma"]

/-- One CSV row of src/production/main_hnl_production.cc:686-699: the
production-vertex coordinates are written exactly as read (millimeters), and
the boost column is e divided by the recovered mass. -/
def csvRow (iEvent weight : ℚ) (p : Kin) (parentPdg : Int) (massUsed : ℚ) : List ℚ :=
  [iEvent, weight, (p.id : ℚ), (parentPdg : ℚ), p.pT, p.eta, p.phi, p.pAbs, p.e, p.m,
   p.xProd, p.yProd, p.zProd, p.e / massUsed]

end ProdMain

namespace Single

/-- The index of the mother of the earliest same-species copy as resolved in
findPhysicalParentId (src/production/main_hnl_single.cc:139-144); this driver
has no fallback for an out-of-range iTopCopy link (it returns 0 instead). -/
def motherOfTop (ev : Event) (i : Int) : Int :=
  (Event.get ev (Event.get ev i).iTopCopy).mother1

/-- findPhysicalParentId of src/production/main_hnl_single.cc:131-155. -/
def findPhysicalParentId (ev : Event) (iLlp : Int) (llpPdgid : Int) : Int :=
  if iLlp < 0 ∨ Event.size ev ≤ iLlp then 0
  else
    let iTop := (Event.get ev iLlp).iTopCopy
    if iTop < 0 ∨ Event.size ev ≤ iTop then 0
    else
      let iMother := (Event.get ev iTop).mother1
      if iMother ≤ 0 ∨ Event.size ev ≤ iMother then 0
      else if ((Event.get ev iMother).id.natAbs : Int) = llpPdgid then 0
      else (Event.get ev iMother).id

/-- The CSV header of src/production/main_hnl_single.cc:287-288. -/
def csvHeader : List String :=
  ["event", "weight", "id", "parent_id", "pt", "eta", "phi", "momentum", "energy", "mass",
   "prod_x_m", "prod_y_m", "prod_z_m"]

/-- One CSV row of src/production/main_hnl_single.cc:322-328: the
production-vertex coordinates of the top copy are divided by 1000
(millimeters to meters) on output. -/
def csvRow (iEvent weight : ℚ) (p pTop : ProdMain.Kin) (parentId : Int) : List ℚ :=
  [iEvent, weight, (p.id : ℚ), (parentId : ℚ), p.pT, p.eta, p.phi, p.pAbs, p.e, p.m,
   pTop.xProd / 1000, pTop.yProd / 1000, pTop.zProd / 1000]

end Single

namespace PyProd

/-- HNL PDG id of src/production/pythia_production/main_hnl_production.cc. -/
def HNL_ID : Int := 9900012

def M_ELECTRON : ℚ := 0.000511
def M_MUON : ℚ := 0.10566
def M_TAU : ℚ := 1.777

/-- The MESON_MASSES table of
src/production/pythia_production/main_hnl_production.cc (adds K_L). -/
def mesonMass : Int → ℚ
  | 130 => 0.498
  | 321 => 0.494
  | 411 => 1.870
  | 421 => 1.865
  | 431 => 1.968
  | 511 => 5.280
  | 521 => 5.279
  | 531 => 5.367
  | 541 => 6.275
  | _ => 0

/-- isKinematicallyAllowed2Body of
src/production/pythia_production/main_hnl_production.cc:168-170. -/
def isKinematicallyAllowed2Body (mParent mLepton mHNL : ℚ) : Bool :=
  mHNL < mParent - mLepton

/-- The 3-body semileptonic emitter catalog of configureMesonDecays:
(parent id, parent mass, daughter mass) as hard-coded in
src/production/pythia_production/main_hnl_production.cc:324-439. -/
def emitters3 : List (Int × ℚ × ℚ) :=
  [(130, 0.498, 0.140), (421, 1.865, 0.494), (411, 1.870, 0.498),
   (511, 5.280, 1.870), (521, 5.279, 1.865), (531, 5.367, 1.968),
   (5122, 5.620, 2.286), (4122, 2.286, 1.115)]

/-- configureMesonDecays of
src/production/pythia_production/main_hnl_production.cc:235-445, as the list
of engine commands issued, in source order (this variant forces mayDecay on
for the long-lived K± and K_L before inserting their channels, and adds the
K_L and Λc semileptonic channels). -/
def configureMesonDecays (leptonID : Int) (mHNL mLepton : ℚ) : List Cmd :=
  (if isKinematicallyAllowed2Body (mesonMass 321) mLepton mHNL then
    [.mayDecayOn 321, .mayDecayOn (-321),
     .onModeOff 321, .addChannel 321 1 0 [-leptonID, HNL_ID],
     .onModeOff (-321), .addChannel (-321) 1 0 [leptonID, HNL_ID]] else []) ++
  (if isKinematicallyAllowed2Body (mesonMass 411) mLepton mHNL then
    [.onModeOff 411, .addChannel 411 1 0 [-leptonID, HNL_ID],
     .onModeOff (-411), .addChannel (-411) 1 0 [leptonID, HNL_ID]] else []) ++
  (if isKinematicallyAllowed2Body (mesonMass 431) mLepton mHNL then
    [.onModeOff 431, .addChannel 431 1 0 [-leptonID, HNL_ID],
     .onModeOff (-431), .addChannel (-431) 1 0 [leptonID, HNL_ID]] else []) ++
  (if isKinematicallyAllowed2Body (mesonMass 521) mLepton mHNL then
    [.onModeOff 521, .addChannel 521 1 0 [-leptonID, HNL_ID],
     .onModeOff (-521), .addChannel (-521) 1 0 [leptonID, HNL_ID]] else []) ++
  (if isKinematicallyAllowed2Body (mesonMass 541) mLepton mHNL then
    [.onModeOff 541, .addChannel 541 1 0 [-leptonID, HNL_ID],
     .onModeOff (-541), .addChannel (-541) 1 0 [leptonID, HNL_ID]] else []) ++
  (if mHNL + mLepton + 0.140 < mesonMass 130 then
    [.mayDecayOn 130, .onModeOff 130,
     .addChannel 130 0.5 0 [-211, -leptonID, HNL_ID],
     .addChannel 130 0.5 0 [211, leptonID, HNL_ID]] else []) ++
  (if mHNL + mLepton + mesonMass 321 < mesonMass 421 then
    [.onModeOff 421, .addChannel 421 1 0 [-321, -leptonID, HNL_ID],
     .onModeOff (-421), .addChannel (-421) 1 0 [321, leptonID, HNL_ID]] else []) ++
  (if mHNL + mLepton + 0.498 < mesonMass 411 then
    [.addChannel 411 0.5 0 [-311, -leptonID, HNL_ID],
     .addChannel (-411) 0.5 0 [311, leptonID, HNL_ID]] else []) ++
  (if mHNL + mLepton + mesonMass 411 < mesonMass 511 then
    [.onModeOff 511, .addChannel 511 1 0 [-411, -leptonID, HNL_ID],
     .onModeOff (-511), .addChannel (-511) 1 0 [411, leptonID, HNL_ID]] else []) ++
  (if mHNL + mLepton + mesonMass 421 < mesonMass 521 then
    [.addChannel 521 0.5 0 [-421, -leptonID, HNL_ID],
     .addChannel (-521) 0.5 0 [421, leptonID, HNL_ID]] else []) ++
  (if mHNL + mLepton + mesonMass 431 < mesonMass 531 then
    [.onModeOff 531, .addChannel 531 1 0 [-431, -leptonID, HNL_ID],
     .onModeOff (-531), .addChannel (-531) 1 0 [431, leptonID, HNL_ID]] else []) ++
  (if mHNL + mLepton + 2.286 < 5.620 then
    [.onModeOff 5122, .addChannel 5122 1 0 [4122, leptonID, HNL_ID],
     .onModeOff (-5122), .addChannel (-5122) 1 0 [-4122, -leptonID, HNL_ID]] else []) ++
  (if mHNL + mLepton + 1.115 < 2.286 then
    [.onModeOff 4122, .addChannel 4122 1 0 [3122, leptonID, HNL_ID],
     .onModeOff (-4122), .addChannel (-4122) 1 0 [-3122, -leptonID, HNL_ID]] else [])

/-- The repeated parent-block pattern of configureMesonDecaysToTauNu
(src/production/pythia_production/main_hnl_production.cc:494-577) for a B
meson with a ground-state and a vector-excited daughter variant: the parent's
default table is switched off for both charge states, then if both daughter
variants are kinematically open the channels are inserted with weights 0.4
(ground) and 0.6 (excited); if only the ground state is open it alone is
inserted with weight 1.0; otherwise no channel is inserted. -/
def tauNuBlock (pid gId xId : Int) (mG mX mParent : ℚ) : List Cmd :=
  [.onModeOff pid, .onModeOff (-pid)] ++
  (if M_TAU + mG < mParent ∧ M_TAU + mX < mParent then
    [.addChannel pid 0.4 0 [-gId, -15, 16], .addChannel pid 0.6 0 [-xId, -15, 16],
     .addChannel (-pid) 0.4 0 [gId, 15, -16], .addChannel (-pid) 0.6 0 [xId, 15, -16]]
   else if M_TAU + mG < mParent then
    [.addChannel pid 1 0 [-gId, -15, 16], .addChannel (-pid) 1 0 [gId, 15, -16]]
   else [])

/-- configureMesonDecaysToTauNu of
src/production/pythia_production/main_hnl_production.cc:466-602: Ds and Bc
are forced to the 2-body tau nu mode, and B+, B0, Bs each follow the
ground/excited daughter pattern of tauNuBlock with their hard-coded masses. -/
def configureMesonDecaysToTauNu (mHNL : ℚ) : List Cmd :=
  (if M_TAU < mesonMass 431 then
    [.onModeOff 431, .addChannel 431 1 0 [-15, 16],
     .onModeOff (-431), .addChannel (-431) 1 0 [15, -16]] else []) ++
  tauNuBlock 521 421 423 (mesonMass 421) 2.007 (mesonMass 521) ++
  tauNuBlock 511 411 413 (mesonMass 411) 2.010 (mesonMass 511) ++
  tauNuBlock 531 431 433 (mesonMass 431) 2.112 (mesonMass 531) ++
  (if M_TAU < mesonMass 541 then
    [.onModeOff 541, .addChannel 541 1 0 [-15, 16],
     .onModeOff (-541), .addChannel (-541) 1 0 [15, -16]] else [])

/-- Whether a flavor string is accepted by getLeptonInfo
(src/production/pythia_production/main_hnl_production.cc:143-165). -/
def knownFlavor (flavor : String) : Bool :=
  flavor = "electron" || flavor = "e" || flavor = "muon" || flavor = "mu" ||
  flavor = "μ" || flavor = "tau" || flavor = "τ"

/-- The pre-initialization validation of main in
src/production/pythia_production/main_hnl_production.cc:800-841: production
mode check, QCD mode check, mode-flavor combination check, then the fromTau
kinematic limit mHNL > M_TAU - M_ELECTRON (lines 829-836), then
getLeptonInfo.  Every rejection is a non-zero exit (code 1) issued before
pythia.init() is reached; Except.ok means the driver proceeds toward engine
initialization. -/
def validateRun (mHNL : ℚ) (flavor productionMode qcdMode : String) : Except Nat Unit :=
  if productionMode ≠ "direct" ∧ productionMode ≠ "fromTau" then .error 1
  else if qcdMode ≠ "auto" ∧ qcdMode ≠ "hardBc" ∧
          qcdMode ≠ "hardccbar" ∧ qcdMode ≠ "hardbbbar" then .error 1
  else if productionMode = "fromTau" ∧ flavor ≠ "tau" then .error 1
  else if productionMode = "fromTau" ∧ mHNL > M_TAU - M_ELECTRON then .error 1
  else if ¬ knownFlavor flavor then .error 1
  else .ok ()

/-- The index of the mother of the earliest same-species copy, with the
fallback to the particle itself when the iTopCopy link is out of range,
exactly as resolved in findPhysicalParent
(src/production/pythia_production/main_hnl_production.cc:201-206). -/
def motherOfTop (ev : Event) (i : Int) : Int :=
  let t0 := (Event.get ev i).iTopCopy
  let t := if t0 < 0 ∨ Event.size ev ≤ t0 then i else t0
  (Event.get ev t).mother1

/-- findPhysicalParent of
src/production/pythia_production/main_hnl_production.cc:198-215, with the
optional self-parenting guard against forbiddenId. -/
def findPhysicalParent (ev : Event) (iParticle forbiddenId : Int) : Int :=
  if iParticle < 0 ∨ Event.size ev ≤ iParticle then 0
  else
    let iMother := motherOfTop ev iParticle
    if iMother ≤ 0 ∨ Event.size ev ≤ iMother then 0
    else if forbiddenId ≠ 0 ∧ (Event.get ev iMother).id.natAbs = forbiddenId.natAbs then 0
    else (Event.get ev iMother).id

/-- The per-candidate parent resolution of the event loop in main
(src/production/pythia_production/main_hnl_production.cc:1072-1088): the
primary parent id from findPhysicalParent with the HNL self-parenting guard,
and, when that parent is a tau, the tau's own physical parent recovered from
the tau's index, recorded as the absolute value of its id. -/
def resolveParents (ev : Event) (i : Int) : Int × Int :=
  let parentPdg := findPhysicalParent ev i HNL_ID
  let tauParentId :=
    if (parentPdg.natAbs : Int) = 15 then
      let iTau := motherOfTop ev i
      if 0 < iTau ∧ iTau < Event.size ev then
        let tauParentPdg := findPhysicalParent ev iTau 0
        if tauParentPdg ≠ 0 then (tauParentPdg.natAbs : Int) else 0
      else 0
    else 0
  (parentPdg, tauParentId)

end PyProd

/-- The per-event export loop of src/pythiaStuff/main_hnl_scan.cc:103-149 and
src/pythiaStuff/main_hnl_single.cc:219-243: particles whose absolute id is
not the candidate id are skipped, and a row is written for a candidate only
when its signed id has not already been written in this event (the
writtenIDs set, modeled as the list of already-written signed ids). -/
def scanEventRows (llp : Int) : List Particle → List Int → List Particle
  | [], _ => []
  | p :: rest, written =>
    if (p.id.natAbs : Int) ≠ llp then scanEventRows llp rest written
    else if p.id ∈ written then scanEventRows llp rest written
    else p :: scanEventRows llp rest (p.id :: written)

/-- The concrete event used to witness the self-parenting guard: the
candidate at index 1 is its own earliest copy and its direct mother (index 2)
carries the candidate species id (negated). -/
def c5Event : Event := [⟨90, 0, 0⟩, ⟨9900015, 1, 2⟩, ⟨-9900015, 2, 0⟩]

/-- A well-formed two-stage chain: hard process (0) produces a B+ (index 1),
which produces a tau (index 2), which produces the candidate (index 3). -/
def c6Event : Event := [⟨90, 0, 0⟩, ⟨521, 1, 0⟩, ⟨15, 2, 1⟩, ⟨9900012, 3, 2⟩]

/-- The same two-stage chain with an antiparticle grandparent: a B- (id -521)
produces the tau that produces the candidate. -/
def c6CounterEvent : Event := [⟨90, 0, 0⟩, ⟨-521, 1, 0⟩, ⟨15, 2, 1⟩, ⟨9900012, 3, 2⟩]

/-- A sample engine particle for the CSV-contract counterexample, with a
production vertex of 2000 mm (2 m). -/
def c9kin : ProdMain.Kin := ⟨9900015, 1, 0, 0, 5, 6, 2, 2000, 3000, 4000⟩

/-!  Helper lemmas for pushing filters, membership and `any` through the
if-guarded command blocks of the configurators.  -/

theorem filter_ite_nil (f : Cmd → Bool) (c : Prop) [Decidable c] (l : List Cmd) :
    List.filter f (if c then l else []) = if c then List.filter f l else [] := by
  split <;> rfl

theorem any_ite_nil (f : Cmd → Bool) (c : Prop) [Decidable c] (l : List Cmd) :
    List.any (if c then l else []) f = (decide c && l.any f) := by
  split <;> simp [*]

theorem mem_ite_nil (a : Cmd) (c : Prop) [Decidable c] (l : List Cmd) :
    (a ∈ if c then l else []) ↔ c ∧ a ∈ l := by
  split <;> simp [*]

theorem scanEventRows_invariant (llp : Int) (ps : List Particle) :
    ∀ written : List Int,
      (∀ q ∈ scanEventRows llp ps written, (q.id.natAbs : Int) = llp ∧ q.id ∉ written) ∧
      ((scanEventRows llp ps written).map Particle.id).Nodup := by
  induction ps with
  | nil => intro written; simp [scanEventRows]
  | cons p rest ih =>
    intro written
    simp only [scanEventRows]
    split_ifs with h1 h2
    · exact ih written
    · exact ih written
    · have hid : (p.id.natAbs : Int) = llp := not_not.mp h1
      obtain ⟨ihA, ihB⟩ := ih (p.id :: written)
      refine ⟨?_, ?_⟩
      · intro q hq
        rcases List.mem_cons.mp hq with rfl | hq
        · exact ⟨hid, h2⟩
        · obtain ⟨hA, hB⟩ := ihA q hq
          exact ⟨hA, fun hw => hB (List.mem_cons_of_mem _ hw)⟩
      · simp only [List.map_cons]
        refine List.nodup_cons.mpr ⟨?_, ihB⟩
        intro hmem
        obtain ⟨q, hq, hqid⟩ := List.mem_map.mp hmem
        apply (ihA q hq).2
        rw [hqid]
        exact List.mem_cons_self _ _

/-- C10: in the pythiaStuff scan and single-mass drivers, at most one CSV row
is written per distinct signed candidate id within an event (so at most two
rows per event, one per charge state); a candidate whose signed id was
already written in the same event is skipped. -/
theorem C10_one_row_per_signed_id (llp : Int) (ps : List Particle) :
    ((scanEventRows llp ps []).map Particle.id).Nodup ∧
    (∀ x : Int, ((scanEventRows llp ps []).map Particle.id).count x ≤ 1) ∧
    (∀ q ∈ scanEventRows llp ps [], (q.id.natAbs : Int) = llp) ∧
    (scanEventRows llp ps []).length ≤ 2 := by
  obtain ⟨hA, hB⟩ := scanEventRows_invariant llp ps []
  refine ⟨hB, fun x => List.nodup_iff_count_le_one.mp hB x, fun q hq => (hA q hq).1, ?_⟩
  have hsub : (scanEventRows llp ps []).map Particle.id ⊆ [llp, -llp] := by
    intro x hx
    obtain ⟨q, hq, rfl⟩ := List.mem_map.mp hx
    have hq1 : (q.id.natAbs : Int) = llp := (hA q hq).1
    rcases Int.natAbs_eq q.id with h | h
    · rw [← hq1, ← h]; exact List.mem_cons_self _ _
    · have : q.id = -llp := by rw [← hq1, ← h]
      rw [this]; simp
  have hlen := (hB.subperm hsub).length_le
  simpa using hlen

/-- C5: for a same-species self-parenting ancestry chain (the direct mother
of the candidate's earliest same-species copy itself carries the candidate
species id in absolute value), both ParentResolver variants return id 0,
never a non-zero id. -/
theorem C5_selfParenting_returns_unknown (ev : Event) (i llp : Int)
    (h1 : ((Event.get ev (ProdMain.motherOfTop ev i)).id.natAbs : Int) = ProdMain.HNL_ID)
    (h2 : ((Event.get ev (Single.motherOfTop ev i)).id.natAbs : Int) = llp) :
    ProdMain.findPhysicalParent ev i = 0 ∧ Single.findPhysicalParentId ev i llp = 0 := by
  constructor
  · simp only [ProdMain.findPhysicalParent]
    split_ifs <;> rfl
  · simp only [Single.findPhysicalParentId, Single.motherOfTop] at h2 ⊢
    split_ifs <;> rfl


/-- Witness for C5: on the concrete self-parenting event both resolvers
return 0. -/
theorem C5_witness :
    ProdMain.findPhysicalParent c5Event 1 = 0 ∧
    Single.findPhysicalParentId c5Event 1 9900015 = 0 :=
  C5_selfParenting_returns_unknown c5Event 1 9900015 (by decide) (by decide)

/-- Witness for C10: on a concrete event containing two candidates of each
charge state, the exported ids are distinct and at most two rows appear. -/
theorem C10_witness :
    ((scanEventRows 9900015
        [⟨9900015, 0, 0⟩, ⟨-9900015, 1, 0⟩, ⟨9900015, 2, 0⟩, ⟨-9900015, 3, 0⟩] []).map
      Particle.id).Nodup ∧
    (scanEventRows 9900015
        [⟨9900015, 0, 0⟩, ⟨-9900015, 1, 0⟩, ⟨9900015, 2, 0⟩, ⟨-9900015, 3, 0⟩] []).length ≤ 2 :=
  ⟨(C10_one_row_per_signed_id 9900015 _).1, (C10_one_row_per_signed_id 9900015 _).2.2.2⟩

/-- C8 counterexample: with a nominal input mass of 0 (accepted unchecked
from the command line), an event candidate with recorded mass -1 drives the
driver into the fatal branch (exit code 1), so the recovery is not
"never fatal" as claimed. -/
theorem C8_counterexample :
    ProdMain.processCandidateMass (-1) true 0 = .error () := by
  norm_num [ProdMain.processCandidateMass]

/-- C8 (amended): whenever the run's nominal input mass is positive, an event
candidate with a non-positive or non-finite recorded mass is recovered
locally by substituting the nominal mass, with the warning flag raised and no
fatal exit. -/
theorem C8_mass_recovery_amended (pm mHNL : ℚ) (finite : Bool)
    (hpos : 0 < mHNL) (hanom : pm ≤ 0 ∨ finite = false) :
    ProdMain.processCandidateMass pm finite mHNL = .ok (mHNL, true) := by
  have hw : (decide (pm ≤ 0) || !finite) = true := by
    rcases hanom with h | h
    · simp [h]
    · simp [h]
  simp [ProdMain.processCandidateMass, hw, hpos.not_le]

/-- Witness for C8: the recovery at recorded mass -1 with nominal mass 1. -/
theorem C8_witness :
    ProdMain.processCandidateMass (-1) true 1 = .ok (1, true) :=
  C8_mass_recovery_amended (-1) 1 true (by norm_num) (Or.inl (by norm_num))

/-- C4 counterexample: the production driver
(src/production/main_hnl_production.cc) accepts a fromTau run at mass 3.0 GeV
with tau flavor — its pre-initialization validation succeeds and its tau
configurator merely leaves the tau decay table without any forced channel
(warning only), so the run proceeds to engine initialization instead of
being rejected. -/
theorem C4_counterexample :
    ProdMain.validateRun 3 "tau" "fromTau" = .ok () ∧
    (ProdMain.configureTauDecays 3).filter Cmd.isAddChannel = [] := by
  constructor
  · simp [ProdMain.validateRun, ProdMain.knownFlavor]
  · norm_num [ProdMain.configureTauDecays, ProdMain.M_TAU, List.filter, Cmd.isAddChannel]

/-- C4 (amended): the pythia_production driver rejects every fromTau run
whose candidate mass exceeds the tau mass minus the electron mass with a
non-zero exit (code 1) before engine initialization, for any flavor and QCD
mode argument. -/
theorem C4_fromTau_reject_amended (m : ℚ) (flavor qcd : String)
    (hm : m > PyProd.M_TAU - PyProd.M_ELECTRON) :
    PyProd.validateRun m flavor "fromTau" qcd = .error 1 := by
  unfold PyProd.validateRun
  split_ifs with h1 h2 h3 h4 h5 <;> try rfl
  exact absurd ⟨rfl, hm⟩ h4

/-- Witness for C4: a 3.0 GeV tau-flavor fromTau run is rejected by the
pythia_production driver. -/
theorem C4_witness :
    PyProd.validateRun 3 "tau" "fromTau" "auto" = .error 1 :=
  C4_fromTau_reject_amended 3 "tau" "auto"
    (by norm_num [PyProd.M_TAU, PyProd.M_ELECTRON])

/-- C9 counterexample: the production driver exports the production-vertex
x-coordinate exactly as read from the engine (millimeters, here 2000 mm),
not re-scaled to meters, so the rows are not "re-scaled to meters on output"
as claimed (its header names the columns prod_x_mm accordingly). -/
theorem C9_counterexample :
    (ProdMain.csvRow 0 1 c9kin 411 2).get? 10 = some 2000 ∧
    (ProdMain.csvRow 0 1 c9kin 411 2).get? 10 ≠ some (c9kin.xProd / 1000) := by
  constructor
  · rfl
  · norm_num [ProdMain.csvRow, c9kin]

/-- C9 (amended): positions are handled in millimeters internally; the
single-mass driver re-scales them to meters on output (columns prod_x_m,
prod_y_m, prod_z_m), while the production driver exports raw millimeters
(columns prod_x_mm, prod_y_mm, prod_z_mm); within each driver the field
order of the row matches its committed header. -/
theorem C9_unit_contract_amended (e w mUsed : ℚ) (p t : ProdMain.Kin) (pid : Int) :
    (Single.csvRow e w p t pid).length = Single.csvHeader.length ∧
    (Single.csvRow e w p t pid).get? 10 = some (t.xProd / 1000) ∧
    (Single.csvRow e w p t pid).get? 11 = some (t.yProd / 1000) ∧
    (Single.csvRow e w p t pid).get? 12 = some (t.zProd / 1000) ∧
    Single.csvHeader.get? 10 = some "prod_x_m" ∧
    Single.csvHeader.get? 11 = some "prod_y_m" ∧
    Single.csvHeader.get? 12 = some "prod_z_m" ∧
    (ProdMain.csvRow e w p pid mUsed).length = ProdMain.csvHeader.length ∧
    (ProdMain.csvRow e w p pid mUsed).get? 10 = some p.xProd ∧
    (ProdMain.csvRow e w p pid mUsed).get? 11 = some p.yProd ∧
    (ProdMain.csvRow e w p pid mUsed).get? 12 = some p.zProd ∧
    ProdMain.csvHeader.get? 10 = some "prod_x_mm" ∧
    ProdMain.csvHeader.get? 11 = some "prod_y_mm" ∧
    ProdMain.csvHeader.get? 12 = some "prod_z_mm" := by
  exact ⟨rfl, rfl, rfl, rfl, rfl, rfl, rfl, by rfl, rfl, rfl, rfl, rfl, rfl, rfl⟩

/-- C6 counterexample: on a two-stage chain whose grandparent is a B-
(id -521) the resolver's primary output is the tau id 15, but the secondary
output is 521, the absolute value, which differs from the grandparent's
species id -521. -/
theorem C6_counterexample :
    PyProd.resolveParents c6CounterEvent 3 = (15, 521) ∧
    (Event.get c6CounterEvent 1).id = -521 ∧ ((521 : Int) ≠ -521) := by
  refine ⟨?_, rfl, by decide⟩
  rfl

/-- C6 (amended): for a two-stage chain grandparent, tau, candidate (with
in-range ancestry links, a tau mother and a non-zero grandparent id), the
resolver's primary output is the tau's signed id (±15) and its secondary
output is the absolute value of the grandparent's species id. -/
theorem C6_twoStage_amended (ev : Event) (i : Int)
    (hi0 : 0 ≤ i) (hi1 : i < Event.size ev)
    (hT0 : 0 < PyProd.motherOfTop ev i)
    (hT1 : PyProd.motherOfTop ev i < Event.size ev)
    (hTid : ((Event.get ev (PyProd.motherOfTop ev i)).id.natAbs : Int) = 15)
    (hG0 : 0 < PyProd.motherOfTop ev (PyProd.motherOfTop ev i))
    (hG1 : PyProd.motherOfTop ev (PyProd.motherOfTop ev i) < Event.size ev)
    (hGnz : (Event.get ev (PyProd.motherOfTop ev (PyProd.motherOfTop ev i))).id ≠ 0) :
    PyProd.resolveParents ev i =
      ((Event.get ev (PyProd.motherOfTop ev i)).id,
       ((Event.get ev (PyProd.motherOfTop ev (PyProd.motherOfTop ev i))).id.natAbs : Int)) := by
  have hrange1 : ¬ (i < 0 ∨ Event.size ev ≤ i) := by push_neg; exact ⟨hi0, hi1⟩
  have hrange2 : ¬ (PyProd.motherOfTop ev i ≤ 0 ∨
      Event.size ev ≤ PyProd.motherOfTop ev i) := by push_neg; exact ⟨hT0, hT1⟩
  have hguard : ¬ (PyProd.HNL_ID ≠ 0 ∧
      (Event.get ev (PyProd.motherOfTop ev i)).id.natAbs = PyProd.HNL_ID.natAbs) := by
    rintro ⟨-, habs⟩
    rw [habs] at hTid
    norm_num [PyProd.HNL_ID] at hTid
  have hP : PyProd.findPhysicalParent ev i PyProd.HNL_ID =
      (Event.get ev (PyProd.motherOfTop ev i)).id := by
    simp only [PyProd.findPhysicalParent]
    rw [if_neg hrange1, if_neg hrange2, if_neg hguard]
  have hrange3 : ¬ (PyProd.motherOfTop ev i < 0 ∨
      Event.size ev ≤ PyProd.motherOfTop ev i) := by
    push_neg; exact ⟨le_of_lt hT0, hT1⟩
  have hrange4 : ¬ (PyProd.motherOfTop ev (PyProd.motherOfTop ev i) ≤ 0 ∨
      Event.size ev ≤ PyProd.motherOfTop ev (PyProd.motherOfTop ev i)) := by
    push_neg; exact ⟨hG0, hG1⟩
  have hguard0 : ¬ ((0 : Int) ≠ 0 ∧
      (Event.get ev (PyProd.motherOfTop ev (PyProd.motherOfTop ev i))).id.natAbs =
        (0 : Int).natAbs) := by
    rintro ⟨h0, -⟩
    exact h0 rfl
  have hG : PyProd.findPhysicalParent ev (PyProd.motherOfTop ev i) 0 =
      (Event.get ev (PyProd.motherOfTop ev (PyProd.motherOfTop ev i))).id := by
    simp only [PyProd.findPhysicalParent]
    rw [if_neg hrange3, if_neg hrange4, if_neg hguard0]
  simp only [PyProd.resolveParents, hP, hG]
  rw [if_pos hTid, if_pos ⟨hT0, hT1⟩, if_pos hGnz]

/-- Witness for C6: on the concrete two-stage chain with a B+ grandparent the
resolver yields primary 15 and secondary 521. -/
theorem C6_witness :
    PyProd.resolveParents c6Event 3 =
      ((Event.get c6Event 2).id, ((Event.get c6Event 1).id.natAbs : Int)) := by
  have h := C6_twoStage_amended c6Event 3 (by decide) (by decide) (by decide)
    (by decide) (by decide) (by decide) (by decide) (by decide)
  have h2 : PyProd.motherOfTop c6Event 3 = 2 := by decide
  have h1 : PyProd.motherOfTop c6Event (PyProd.motherOfTop c6Event 3) = 1 := by decide
  rw [h, h1, h2]

/-- C2: for every 3-body emitter of either production driver, with parent
rest mass M and daughter rest mass mD, the 3-body channel is configured
enabled if and only if mHNL + mLepton + mD < M holds strictly. -/
theorem C2_threeBody_enable_iff (m mL : ℚ) (lep : Int) :
    (∀ P M mD, (P, M, mD) ∈ ProdMain.emitters3 →
      (threeBodyEnabled (ProdMain.configureMesonDecays lep m mL) P = true ↔
        m + mL + mD < M)) ∧
    (∀ P M mD, (P, M, mD) ∈ PyProd.emitters3 →
      (threeBodyEnabled (PyProd.configureMesonDecays lep m mL) P = true ↔
        m + mL + mD < M)) := by
  constructor
  · intro P M mD h
    simp only [ProdMain.emitters3, List.mem_cons, List.not_mem_nil, or_false,
      Prod.mk.injEq] at h
    rcases h with h | h | h | h | h | h <;> obtain ⟨rfl, rfl, rfl⟩ := h <;>
    simp [ProdMain.configureMesonDecays, threeBodyEnabled, List.any_append, any_ite_nil,
      ProdMain.isKinematicallyAllowed2Body, ProdMain.mesonMass, Cmd.isAddChannel,
      Cmd.pid, Cmd.nDaughters]
  · intro P M mD h
    simp only [PyProd.emitters3, List.mem_cons, List.not_mem_nil, or_false,
      Prod.mk.injEq] at h
    rcases h with h | h | h | h | h | h | h | h <;> obtain ⟨rfl, rfl, rfl⟩ := h <;>
    simp [PyProd.configureMesonDecays, threeBodyEnabled, List.any_append, any_ite_nil,
      PyProd.isKinematicallyAllowed2Body, PyProd.mesonMass, Cmd.isAddChannel,
      Cmd.pid, Cmd.nDaughters]

/-- Witness for C2: at 1 GeV with the muon mass, the D0 semileptonic channel
is enabled by the production configurator. -/
theorem C2_witness :
    threeBodyEnabled (ProdMain.configureMesonDecays 13 1 0.10566) 421 = true :=
  ((C2_threeBody_enable_iff 1 0.10566 13).1 421 1.865 0.494
    (by simp [ProdMain.emitters3])).mpr (by norm_num)

/-- C1: for every 2-body emitter of the production driver with catalog rest
mass M, the configurator force-disables the parent's default table (onMode
off for both charge states) and inserts exactly the two charge-conjugate
2-body channels, parent to opposite-sign lepton plus candidate with weight
1.0 each, if and only if mHNL < M - mLepton holds strictly; when the
inequality fails no command addresses that parent at all. -/
theorem C1_twoBody_enable_iff (m mL : ℚ) (lep : Int) :
    ∀ P M, (P, M) ∈ ProdMain.emitters2 →
      (((Cmd.onModeOff P ∈ ProdMain.configureMesonDecays lep m mL) ∧
        (Cmd.onModeOff (-P) ∈ ProdMain.configureMesonDecays lep m mL) ∧
        twoBodyChans (ProdMain.configureMesonDecays lep m mL) P =
          [Cmd.addChannel P 1 0 [-lep, ProdMain.HNL_ID],
           Cmd.addChannel (-P) 1 0 [lep, ProdMain.HNL_ID]]) ↔ m < M - mL) ∧
      (¬ m < M - mL → touches (ProdMain.configureMesonDecays lep m mL) P = false) := by
  intro P M h
  simp only [ProdMain.emitters2, List.mem_cons, List.not_mem_nil, or_false,
    Prod.mk.injEq] at h
  rcases h with h | h | h | h | h
  all_goals obtain ⟨rfl, rfl⟩ := h
  · constructor
    · constructor
      · rintro ⟨-, -, h3⟩
        by_contra hn
        simp [ProdMain.configureMesonDecays, twoBodyChans, List.filter_append,
          filter_ite_nil, ProdMain.isKinematicallyAllowed2Body, ProdMain.mesonMass,
          Cmd.isAddChannel, Cmd.pid, Cmd.nDaughters, hn] at h3
      · intro hc
        refine ⟨?_, ?_, ?_⟩ <;>
        simp [ProdMain.configureMesonDecays, twoBodyChans, List.filter_append,
          filter_ite_nil, mem_ite_nil, ProdMain.isKinematicallyAllowed2Body,
          ProdMain.mesonMass, Cmd.isAddChannel, Cmd.pid, Cmd.nDaughters, hc]
    · intro hn
      simp [ProdMain.configureMesonDecays, touches, List.any_append, any_ite_nil,
        ProdMain.isKinematicallyAllowed2Body, ProdMain.mesonMass, Cmd.pid, hn]
  · constructor
    · constructor
      · rintro ⟨-, -, h3⟩
        by_contra hn
        simp [ProdMain.configureMesonDecays, twoBodyChans, List.filter_append,
          filter_ite_nil, ProdMain.isKinematicallyAllowed2Body, ProdMain.mesonMass,
          Cmd.isAddChannel, Cmd.pid, Cmd.nDaughters, hn] at h3
      · intro hc
        refine ⟨?_, ?_, ?_⟩ <;>
        simp [ProdMain.configureMesonDecays, twoBodyChans, List.filter_append,
          filter_ite_nil, mem_ite_nil, ProdMain.isKinematicallyAllowed2Body,
          ProdMain.mesonMass, Cmd.isAddChannel, Cmd.pid, Cmd.nDaughters, hc]
    · intro hn
      have h3b : ¬ (m + mL + 0.498 < 1.870) := fun hcon => hn (by linarith)
      simp [ProdMain.configureMesonDecays, touches, List.any_append, any_ite_nil,
        ProdMain.isKinematicallyAllowed2Body, ProdMain.mesonMass, Cmd.pid, hn, h3b]
  · constructor
    · constructor
      · rintro ⟨-, -, h3⟩
        by_contra hn
        simp [ProdMain.configureMesonDecays, twoBodyChans, List.filter_append,
          filter_ite_nil, ProdMain.isKinematicallyAllowed2Body, ProdMain.mesonMass,
          Cmd.isAddChannel, Cmd.pid, Cmd.nDaughters, hn] at h3
      · intro hc
        refine ⟨?_, ?_, ?_⟩ <;>
        simp [ProdMain.configureMesonDecays, twoBodyChans, List.filter_append,
          filter_ite_nil, mem_ite_nil, ProdMain.isKinematicallyAllowed2Body,
          ProdMain.mesonMass, Cmd.isAddChannel, Cmd.pid, Cmd.nDaughters, hc]
    · intro hn
      simp [ProdMain.configureMesonDecays, touches, List.any_append, any_ite_nil,
        ProdMain.isKinematicallyAllowed2Body, ProdMain.mesonMass, Cmd.pid, hn]
  · constructor
    · constructor
      · rintro ⟨-, -, h3⟩
        by_contra hn
        simp [ProdMain.configureMesonDecays, twoBodyChans, List.filter_append,
          filter_ite_nil, ProdMain.isKinematicallyAllowed2Body, ProdMain.mesonMass,
          Cmd.isAddChannel, Cmd.pid, Cmd.nDaughters, hn] at h3
      · intro hc
        refine ⟨?_, ?_, ?_⟩ <;>
        simp [ProdMain.configureMesonDecays, twoBodyChans, List.filter_append,
          filter_ite_nil, mem_ite_nil, ProdMain.isKinematicallyAllowed2Body,
          ProdMain.mesonMass, Cmd.isAddChannel, Cmd.pid, Cmd.nDaughters, hc]
    · intro hn
      have h3b : ¬ (m + mL + 1.865 < 5.279) := fun hcon => hn (by linarith)
      simp [ProdMain.configureMesonDecays, touches, List.any_append, any_ite_nil,
        ProdMain.isKinematicallyAllowed2Body, ProdMain.mesonMass, Cmd.pid, hn, h3b]
  · constructor
    · constructor
      · rintro ⟨-, -, h3⟩
        by_contra hn
        simp [ProdMain.configureMesonDecays, twoBodyChans, List.filter_append,
          filter_ite_nil, ProdMain.isKinematicallyAllowed2Body, ProdMain.mesonMass,
          Cmd.isAddChannel, Cmd.pid, Cmd.nDaughters, hn] at h3
      · intro hc
        refine ⟨?_, ?_, ?_⟩ <;>
        simp [ProdMain.configureMesonDecays, twoBodyChans, List.filter_append,
          filter_ite_nil, mem_ite_nil, ProdMain.isKinematicallyAllowed2Body,
          ProdMain.mesonMass, Cmd.isAddChannel, Cmd.pid, Cmd.nDaughters, hc]
    · intro hn
      simp [ProdMain.configureMesonDecays, touches, List.any_append, any_ite_nil,
        ProdMain.isKinematicallyAllowed2Body, ProdMain.mesonMass, Cmd.pid, hn]

/-- Witness for C1: at 0.3 GeV with the muon mass the K± table is disabled
and exactly the two conjugate 2-body channels are inserted. -/
theorem C1_witness :
    Cmd.onModeOff 321 ∈ ProdMain.configureMesonDecays 13 0.3 0.10566 ∧
    twoBodyChans (ProdMain.configureMesonDecays 13 0.3 0.10566) 321 =
      [Cmd.addChannel 321 1 0 [-13, ProdMain.HNL_ID],
       Cmd.addChannel (-321) 1 0 [13, ProdMain.HNL_ID]] :=
  have h := (C1_twoBody_enable_iff 0.3 0.10566 13 321 0.494
    (by simp [ProdMain.emitters2])).1.mpr (by norm_num)
  ⟨h.1, h.2.2⟩

/-- C3 counterexample: at 0.3 GeV with the muon coupling, the D± table holds
the 2-body channels with weight 1.0 and the 3-body channels with weight 0.5,
a 2:1 relative split — not the claimed equal 0.5/0.5 split between the two
topologies. -/
theorem C3_counterexample :
    (chansFor (ProdMain.configureMesonDecays 13 0.3 0.10566) 411).map Cmd.weight =
      [1, 1, 0.5, 0.5] ∧
    (chansFor (ProdMain.configureMesonDecays 13 0.3 0.10566) 411).map Cmd.weight ≠
      [0.5, 0.5, 0.5, 0.5] := by
  have hval : (chansFor (ProdMain.configureMesonDecays 13 0.3 0.10566) 411).map Cmd.weight =
      [1, 1, 0.5, 0.5] := by
    norm_num [chansFor, ProdMain.configureMesonDecays, ProdMain.isKinematicallyAllowed2Body,
      ProdMain.mesonMass, Cmd.isAddChannel, Cmd.pid, Cmd.weight, List.filter_append,
      filter_ite_nil]
  refine ⟨hval, ?_⟩
  rw [hval]
  intro hEq
  norm_num at hEq

/-- C3 (amended): whenever both the 2-body and the representative 3-body
channel of D+ or B+ are kinematically open, the configurator inserts the
3-body channel pair with weight 0.5 alongside the already-installed 2-body
pair of weight 1.0, without re-disabling the table (exactly one onMode off
per charge state, issued with the 2-body insertion): both topologies are
sampled, in a 2:1 rather than an equal split.  The same holds in the
pythia_production variant. -/
theorem C3_weight_split_amended (m mL : ℚ) (lep : Int) :
    (m < 1.870 - mL → m + mL + 0.498 < 1.870 →
      chansFor (ProdMain.configureMesonDecays lep m mL) 411 =
        [Cmd.addChannel 411 1 0 [-lep, ProdMain.HNL_ID],
         Cmd.addChannel (-411) 1 0 [lep, ProdMain.HNL_ID],
         Cmd.addChannel 411 0.5 0 [-311, -lep, ProdMain.HNL_ID],
         Cmd.addChannel (-411) 0.5 0 [311, lep, ProdMain.HNL_ID]] ∧
      onModeOffCount (ProdMain.configureMesonDecays lep m mL) 411 = 1 ∧
      onModeOffCount (ProdMain.configureMesonDecays lep m mL) (-411) = 1) ∧
    (m < 5.279 - mL → m + mL + 1.865 < 5.279 →
      chansFor (ProdMain.configureMesonDecays lep m mL) 521 =
        [Cmd.addChannel 521 1 0 [-lep, ProdMain.HNL_ID],
         Cmd.addChannel (-521) 1 0 [lep, ProdMain.HNL_ID],
         Cmd.addChannel 521 0.5 0 [-421, -lep, ProdMain.HNL_ID],
         Cmd.addChannel (-521) 0.5 0 [421, lep, ProdMain.HNL_ID]] ∧
      onModeOffCount (ProdMain.configureMesonDecays lep m mL) 521 = 1 ∧
      onModeOffCount (ProdMain.configureMesonDecays lep m mL) (-521) = 1) ∧
    (m < 1.870 - mL → m + mL + 0.498 < 1.870 →
      chansFor (PyProd.configureMesonDecays lep m mL) 411 =
        [Cmd.addChannel 411 1 0 [-lep, PyProd.HNL_ID],
         Cmd.addChannel (-411) 1 0 [lep, PyProd.HNL_ID],
         Cmd.addChannel 411 0.5 0 [-311, -lep, PyProd.HNL_ID],
         Cmd.addChannel (-411) 0.5 0 [311, lep, PyProd.HNL_ID]] ∧
      onModeOffCount (PyProd.configureMesonDecays lep m mL) 411 = 1 ∧
      onModeOffCount (PyProd.configureMesonDecays lep m mL) (-411) = 1) ∧
    (m < 5.279 - mL → m + mL + 1.865 < 5.279 →
      chansFor (PyProd.configureMesonDecays lep m mL) 521 =
        [Cmd.addChannel 521 1 0 [-lep, PyProd.HNL_ID],
         Cmd.addChannel (-521) 1 0 [lep, PyProd.HNL_ID],
         Cmd.addChannel 521 0.5 0 [-421, -lep, PyProd.HNL_ID],
         Cmd.addChannel (-521) 0.5 0 [421, lep, PyProd.HNL_ID]] ∧
      onModeOffCount (PyProd.configureMesonDecays lep m mL) 521 = 1 ∧
      onModeOffCount (PyProd.configureMesonDecays lep m mL) (-521) = 1) := by
  refine ⟨fun h2 h3 => ?_, fun h2 h3 => ?_, fun h2 h3 => ?_, fun h2 h3 => ?_⟩ <;>
  refine ⟨?_, ?_, ?_⟩ <;>
  simp [ProdMain.configureMesonDecays, PyProd.configureMesonDecays, chansFor,
    onModeOffCount, List.filter_append, filter_ite_nil,
    ProdMain.isKinematicallyAllowed2Body, PyProd.isKinematicallyAllowed2Body,
    ProdMain.mesonMass, PyProd.mesonMass, Cmd.isAddChannel, Cmd.pid, h2, h3]

/-- Witness for C3: at 0.3 GeV with the muon mass both D± topologies are open
and the production configurator installs the 1.0/0.5-weighted channel set
with a single onMode off per charge state. -/
theorem C3_witness :
    chansFor (ProdMain.configureMesonDecays 13 0.3 0.10566) 411 =
      [Cmd.addChannel 411 1 0 [-13, ProdMain.HNL_ID],
       Cmd.addChannel (-411) 1 0 [13, ProdMain.HNL_ID],
       Cmd.addChannel 411 0.5 0 [-311, -13, ProdMain.HNL_ID],
       Cmd.addChannel (-411) 0.5 0 [311, 13, ProdMain.HNL_ID]] ∧
    onModeOffCount (ProdMain.configureMesonDecays 13 0.3 0.10566) 411 = 1 :=
  have h := (C3_weight_split_amended 0.3 0.10566 13).1 (by norm_num) (by norm_num)
  ⟨h.1, h.2.1⟩

/-- C7: in the two-stage configurator, a parent meson with a ground-state and
a vector-excited daughter variant gets the 0.4/0.6 split in favor of the
excited state when both variants are kinematically open, and weight 1.0 on
the ground state alone when only it is open; B+, B0 and Bs each instantiate
this pattern at their catalog masses, where both variants are open. -/
theorem C7_excited_state_split (pid gId xId : Int) (mG mX M : ℚ) :
    (PyProd.M_TAU + mG < M → PyProd.M_TAU + mX < M →
      chansFor (PyProd.tauNuBlock pid gId xId mG mX M) pid =
        [Cmd.addChannel pid 0.4 0 [-gId, -15, 16],
         Cmd.addChannel pid 0.6 0 [-xId, -15, 16],
         Cmd.addChannel (-pid) 0.4 0 [gId, 15, -16],
         Cmd.addChannel (-pid) 0.6 0 [xId, 15, -16]]) ∧
    (PyProd.M_TAU + mG < M → ¬ (PyProd.M_TAU + mX < M) →
      chansFor (PyProd.tauNuBlock pid gId xId mG mX M) pid =
        [Cmd.addChannel pid 1 0 [-gId, -15, 16],
         Cmd.addChannel (-pid) 1 0 [gId, 15, -16]]) ∧
    (∀ mHNL, chansFor (PyProd.configureMesonDecaysToTauNu mHNL) 521 =
        [Cmd.addChannel 521 0.4 0 [-421, -15, 16],
         Cmd.addChannel 521 0.6 0 [-423, -15, 16],
         Cmd.addChannel (-521) 0.4 0 [421, 15, -16],
         Cmd.addChannel (-521) 0.6 0 [423, 15, -16]]) ∧
    (∀ mHNL, chansFor (PyProd.configureMesonDecaysToTauNu mHNL) 511 =
        [Cmd.addChannel 511 0.4 0 [-411, -15, 16],
         Cmd.addChannel 511 0.6 0 [-413, -15, 16],
         Cmd.addChannel (-511) 0.4 0 [411, 15, -16],
         Cmd.addChannel (-511) 0.6 0 [413, 15, -16]]) ∧
    (∀ mHNL, chansFor (PyProd.configureMesonDecaysToTauNu mHNL) 531 =
        [Cmd.addChannel 531 0.4 0 [-431, -15, 16],
         Cmd.addChannel 531 0.6 0 [-433, -15, 16],
         Cmd.addChannel (-531) 0.4 0 [431, 15, -16],
         Cmd.addChannel (-531) 0.6 0 [433, 15, -16]]) := by
  refine ⟨fun h1 h2 => ?_, fun h1 h2 => ?_, fun mHNL => ?_, fun mHNL => ?_, fun mHNL => ?_⟩
  · simp [PyProd.tauNuBlock, chansFor, List.filter_append, filter_ite_nil,
      Cmd.isAddChannel, Cmd.pid, h1, h2]
  · simp [PyProd.tauNuBlock, chansFor, List.filter_append, filter_ite_nil,
      Cmd.isAddChannel, Cmd.pid, h1, h2]
  all_goals
    norm_num [PyProd.configureMesonDecaysToTauNu, PyProd.tauNuBlock, chansFor,
      PyProd.mesonMass, PyProd.M_TAU, List.filter_append, filter_ite_nil,
      Cmd.isAddChannel, Cmd.pid]

/-- Witness for C7: at the catalog masses of B+ both daughter variants are
open and the 0.4/0.6 split is installed. -/
theorem C7_witness :
    chansFor (PyProd.tauNuBlock 521 421 423 1.865 2.007 5.279) 521 =
      [Cmd.addChannel 521 0.4 0 [-421, -15, 16],
       Cmd.addChannel 521 0.6 0 [-423, -15, 16],
       Cmd.addChannel (-521) 0.4 0 [421, 15, -16],
       Cmd.addChannel (-521) 0.6 0 [423, 15, -16]] :=
  (C7_excited_state_split 521 421 423 1.865 2.007 5.279).1
    (by norm_num [PyProd.M_TAU]) (by norm_num [PyProd.M_TAU])
